import Mathlib

/-!
Verification development for the "long context vs RAG" cost/latency
calculator. Python floats are modelled as exact rationals (`ℚ`), Python
ints as `ℕ`/`ℤ`, Python dicts of results as structures with one field per
key, and fallible operations (dictionary lookup of a pricing plan,
attribute access, list indexing) as `Except String`/`Option` values.
-/

/- ===================== src/models/pricing.py ===================== -/

/-- Per-million token prices for a tier capped at `up_to_tokens`
(src/models/pricing.py, `TierPricing`). -/
structure TierPricing where
  up_to_tokens : Option ℕ
  input_per_million : ℚ
  output_per_million : ℚ
  cache_write_per_million : ℚ
  cache_read_per_million : ℚ
  cache_storage_per_million_hour : ℚ := 0
deriving Repr, DecidableEq

/-- Pricing configuration for a specific model
(src/models/pricing.py, `PricingPlan`). -/
structure PricingPlan where
  key : String
  label : String
  provider : String
  model_name : String
  context_window : ℕ
  tiers : List TierPricing
  notes : String := ""
deriving Repr, DecidableEq

/-- Loop condition of `PricingPlan._tier_for_tokens`:
`tier.up_to_tokens is None or tokens <= tier.up_to_tokens`. -/
def tierMatches (tokens : ℕ) (t : TierPricing) : Bool :=
  match t.up_to_tokens with
  | none => true
  | some b => decide (tokens ≤ b)

/-- Embedding of `PricingPlan._tier_for_tokens` (pricing.py lines 29-33):
return the first tier matching the token count, else `self.tiers[-1]`
(`none` models the `IndexError` raised by `tiers[-1]` on an empty list). -/
def PricingPlan.tier_for_tokens (p : PricingPlan) (tokens : ℕ) : Option TierPricing :=
  match p.tiers.find? (tierMatches tokens) with
  | some t => some t
  | none => p.tiers.getLast?

/-- Embedding of `PricingPlan.input_price`. -/
def PricingPlan.input_price (p : PricingPlan) (tokens : ℕ) : Option ℚ :=
  (p.tier_for_tokens tokens).map (fun t => t.input_per_million)

/-- Embedding of `PricingPlan.output_price`. -/
def PricingPlan.output_price (p : PricingPlan) (tokens : ℕ) : Option ℚ :=
  (p.tier_for_tokens tokens).map (fun t => t.output_per_million)

/-- Embedding of `PricingPlan.cache_write_price`. -/
def PricingPlan.cache_write_price (p : PricingPlan) (tokens : ℕ) : Option ℚ :=
  (p.tier_for_tokens tokens).map (fun t => t.cache_write_per_million)

/-- Embedding of `PricingPlan.cache_read_price`. -/
def PricingPlan.cache_read_price (p : PricingPlan) (tokens : ℕ) : Option ℚ :=
  (p.tier_for_tokens tokens).map (fun t => t.cache_read_per_million)

/-- Embedding of `PricingPlan.cache_storage_price_per_hour`. -/
def PricingPlan.cache_storage_price_per_hour (p : PricingPlan) (tokens : ℕ) : Option ℚ :=
  (p.tier_for_tokens tokens).map (fun t => t.cache_storage_per_million_hour)

/-- Registry of supported pricing plans (src/models/pricing.py,
`PricingCatalog`); the Python `dict` is an association list preserving
insertion order. -/
structure PricingCatalog where
  plans : List (String × PricingPlan)
  default_key : String
deriving Repr, DecidableEq

/-- Embedding of `PricingCatalog.get_plan` (pricing.py lines 73-79):
`key = plan_key or self._default_key` treats both `None` and the empty
string (the only falsy `str`) as a request for the default; an unknown
key raises `KeyError`, modelled as `Except.error`. -/
def PricingCatalog.get_plan (c : PricingCatalog) (plan_key : Option String) : Except String PricingPlan :=
  let key := match plan_key with
    | none => c.default_key
    | some k => if k = "" then c.default_key else k
  match c.plans.lookup key with
  | some p => .ok p
  | none => .error ("Unknown pricing plan " ++ key)

/-- Shared shape of the five price accessors on the catalog: resolve the
plan, then read the tier price; a `none` tier (empty tier list) models the
`IndexError` from `tiers[-1]`. -/
def PricingCatalog.price_via (c : PricingCatalog) (f : PricingPlan → ℕ → Option ℚ)
    (tokens : ℕ) (plan_key : Option String) : Except String ℚ :=
  match c.get_plan plan_key with
  | .error e => .error e
  | .ok p =>
    match f p tokens with
    | some q => .ok q
    | none => .error "IndexError: list index out of range"

/-- Embedding of `PricingCatalog.input_price`. -/
def PricingCatalog.input_price (c : PricingCatalog) (tokens : ℕ) (plan_key : Option String) : Except String ℚ :=
  c.price_via PricingPlan.input_price tokens plan_key

/-- Embedding of `PricingCatalog.output_price`. -/
def PricingCatalog.output_price (c : PricingCatalog) (tokens : ℕ) (plan_key : Option String) : Except String ℚ :=
  c.price_via PricingPlan.output_price tokens plan_key

/-- Embedding of `PricingCatalog.cache_write_price`. -/
def PricingCatalog.cache_write_price (c : PricingCatalog) (tokens : ℕ) (plan_key : Option String) : Except String ℚ :=
  c.price_via PricingPlan.cache_write_price tokens plan_key

/-- Embedding of `PricingCatalog.cache_read_price`. -/
def PricingCatalog.cache_read_price (c : PricingCatalog) (tokens : ℕ) (plan_key : Option String) : Except String ℚ :=
  c.price_via PricingPlan.cache_read_price tokens plan_key

/-- Embedding of `PricingCatalog.cache_storage_price_per_hour`. -/
def PricingCatalog.cache_storage_price_per_hour (c : PricingCatalog) (tokens : ℕ) (plan_key : Option String) : Except String ℚ :=
  c.price_via PricingPlan.cache_storage_price_per_hour tokens plan_key

/-- Embedding of `DEFAULT_PLAN_KEY` (pricing.py line 97). -/
def DEFAULT_PLAN_KEY : String := "claude-3.5-sonnet-1m"

/-- First tier of the Claude plan (pricing.py lines 107-113). -/
def claudeTier0 : TierPricing :=
  { up_to_tokens := some 200000
    input_per_million := 3.0
    output_per_million := 15.0
    cache_write_per_million := 3.75
    cache_read_per_million := 0.3 }

/-- Catch-all tier of the Claude plan (pricing.py lines 114-120). -/
def claudeTier1 : TierPricing :=
  { up_to_tokens := none
    input_per_million := 6.0
    output_per_million := 22.5
    cache_write_per_million := 7.5
    cache_read_per_million := 0.6 }

/-- Default Claude pricing plan (pricing.py lines 100-123). -/
def claudePlan : PricingPlan :=
  { key := DEFAULT_PLAN_KEY
    label := "Anthropic Claude Sonnet"
    provider := "Anthropic"
    model_name := "Claude Sonnet"
    context_window := 1000000
    tiers := [claudeTier0, claudeTier1]
    notes := "Matches the previous default calculation based on Claude 3.5 Sonnet 1M context pricing." }

/-- Single tier of the Gemini plan (pricing.py lines 131-138). -/
def geminiTier : TierPricing :=
  { up_to_tokens := none
    input_per_million := 0.30
    output_per_million := 2.5
    cache_write_per_million := 0.30
    cache_read_per_million := 0.03
    cache_storage_per_million_hour := 1.0 }

/-- Gemini pricing plan (pricing.py lines 124-145). -/
def geminiPlan : PricingPlan :=
  { key := "gemini-2.5-flash"
    label := "Google Gemini 2.5 Flash"
    provider := "Google"
    model_name := "Gemini 2.5 Flash"
    context_window := 1000000
    tiers := [geminiTier]
    notes := "Assumes Gemini prompt caching bills cached tokens at $0.03 per million when reused." }

/-- Embedding of the `PRICING_PLANS` dict (pricing.py lines 99-146). -/
def PRICING_PLANS : List (String × PricingPlan) :=
  [(DEFAULT_PLAN_KEY, claudePlan), ("gemini-2.5-flash", geminiPlan)]

/-- Embedding of the global catalog `pricing` (pricing.py line 149). -/
def pricing : PricingCatalog :=
  { plans := PRICING_PLANS, default_key := DEFAULT_PLAN_KEY }

/- ===================== src/models/parameters.py ===================== -/

/-- Knowledge base configuration parameters
(src/models/parameters.py, `KnowledgeBaseParams`). -/
structure KnowledgeBaseParams where
  pages : ℕ
  tokens_per_page : ℕ
  updates_per_month : ℕ
  cache_storage_hours_per_month : ℕ := 24 * 30
deriving Repr, DecidableEq

/-- Derived property `KnowledgeBaseParams.total_tokens`. -/
def KnowledgeBaseParams.total_tokens (kb : KnowledgeBaseParams) : ℕ :=
  kb.pages * kb.tokens_per_page

/-- Query configuration parameters (parameters.py, `QueryParams`). -/
structure QueryParams where
  query_tokens : ℕ := 50
  output_tokens : ℕ := 1000
deriving Repr, DecidableEq

/-- RAG-specific parameters (parameters.py, `RAGParams`). The dataclass
declares exactly the six fields below; in particular it has NO
`rerank_context_limit` field although `RAGCalculator.calculate` reads one. -/
structure RAGParams where
  top_k : ℕ
  tokens_per_chunk : ℕ := 800
  embedding_price_per_million : ℚ := 0.12
  rerank_price_per_query : ℚ := 0.002
  rerank_top_k : ℕ := 20
  vector_db_base_cost : ℚ := 26.0
deriving Repr, DecidableEq

/-- The attribute names declared by the `RAGParams` dataclass
(parameters.py lines 26-34), in declaration order. -/
def ragParamsAttrs : List String :=
  ["top_k", "tokens_per_chunk", "embedding_price_per_million",
   "rerank_price_per_query", "rerank_top_k", "vector_db_base_cost"]

/-- Grep baseline parameters (parameters.py, `GrepParams`). -/
structure GrepParams where
  avg_tries : ℕ
  avg_docs_retrieved : ℕ
  avg_pages_per_document : ℕ := 10
deriving Repr, DecidableEq

/-- Embedding of `GrepParams.false_file_tokens`. -/
def GrepParams.false_file_tokens (g : GrepParams) (tokens_per_page : ℕ) : ℕ :=
  g.avg_docs_retrieved * g.avg_pages_per_document * tokens_per_page

/-- Embedding of `GrepParams.true_file_tokens`. -/
def GrepParams.true_file_tokens (g : GrepParams) (tokens_per_page : ℕ) : ℕ :=
  g.avg_pages_per_document * tokens_per_page

/-- Selected pricing configuration (parameters.py, `PricingParams`). -/
structure PricingParams where
  plan_key : String := DEFAULT_PLAN_KEY
deriving Repr, DecidableEq

/-- All application parameters (parameters.py, `AppParams`). -/
structure AppParams where
  knowledge_base : KnowledgeBaseParams
  query : QueryParams
  rag : RAGParams
  grep : GrepParams
  pricing : PricingParams
  requests_per_day : ℕ
deriving Repr, DecidableEq

/-- Derived property `AppParams.monthly_requests`. -/
def AppParams.monthly_requests (p : AppParams) : ℕ :=
  p.requests_per_day * 30

/- ===================== src/utils/latency.py ===================== -/

/-- Network and provider overhead in seconds (latency.py line 13). -/
def BASE_NET_OVERHEAD : ℚ := 0.15

/-- TTFT at about 100 prompt tokens (latency.py line 14). -/
def TTFT_100 : ℚ := 1.9

/-- TTFT at 1k prompt tokens (latency.py line 15). -/
def TTFT_1K : ℚ := 2.4

/-- TTFT at 10k prompt tokens (latency.py line 16). -/
def TTFT_10K : ℚ := 2.0

/-- TTFT at 100k prompt tokens (latency.py line 17). -/
def TTFT_100K : ℚ := 4.3

/-- Cached TTFT is 25 percent of uncached (latency.py line 20). -/
def CACHE_SPEEDUP_FACTOR : ℚ := 0.25

/-- Embedding throughput in tokens per second (latency.py line 23). -/
def EMBEDDING_THROUGHPUT : ℚ := 1500.0

/-- Base retrieval time in seconds (latency.py line 24). -/
def RETRIEVAL_BASE_LATENCY : ℚ := 0.010

/-- Retrieval scaling factor (latency.py line 25). -/
def RETRIEVAL_SCALING_FACTOR : ℚ := 0.00002

/-- Reranking time for 24 documents (latency.py line 26). -/
def RERANK_24_DOCS_TIME : ℚ := 0.150

/-- Reranking time for 96 documents (latency.py line 27). -/
def RERANK_96_DOCS_TIME : ℚ := 0.280

/-- Token-count-banded base TTFT: the `if/elif` chain selecting `base_ttft`
inside `_prefill_time` (latency.py lines 38-45). -/
def base_ttft (prompt_tokens : ℕ) : ℚ :=
  if prompt_tokens ≤ 100 then TTFT_100
  else if prompt_tokens ≤ 1000 then TTFT_1K
  else if prompt_tokens ≤ 10000 then TTFT_10K
  else TTFT_100K

/-- Embedding of `_prefill_time` (latency.py lines 30-47):
`BASE_NET_OVERHEAD + scale_factor * base_ttft`. -/
def prefill_time (prompt_tokens : ℕ) (uses_cache : Bool) : ℚ :=
  let scale_factor := if uses_cache then CACHE_SPEEDUP_FACTOR else 1.0
  BASE_NET_OVERHEAD + scale_factor * base_ttft prompt_tokens

/-- Embedding of `_streaming_throughput` (latency.py lines 50-63). -/
def streaming_throughput (prompt_tokens : ℕ) : ℚ :=
  if prompt_tokens ≤ 1000 then 150.0
  else if prompt_tokens ≤ 10000 then 120.0
  else if prompt_tokens ≤ 50000 then 90.0
  else 62.0

/-- Result dict of `estimate_latency`, one field per key. -/
structure LatencyBreakdown where
  ttft : ℚ
  decode : ℚ
  total : ℚ
  throughput : ℚ
deriving Repr, DecidableEq

/-- Embedding of `estimate_latency` (latency.py lines 66-78). -/
def estimate_latency (prompt_tokens completion_tokens : ℕ) (uses_cache : Bool) : LatencyBreakdown :=
  let ttft := prefill_time prompt_tokens uses_cache
  let throughput := streaming_throughput prompt_tokens
  let decode_time := if completion_tokens ≠ 0 then (completion_tokens : ℚ) / throughput else 0.0
  { ttft := ttft
    decode := decode_time
    total := ttft + decode_time
    throughput := throughput }

/-- Embedding of `estimate_embedding_latency` (latency.py lines 81-83). -/
def estimate_embedding_latency (corpus_tokens : ℕ) : ℚ :=
  (corpus_tokens : ℚ) / EMBEDDING_THROUGHPUT

/-- Embedding of `estimate_retrieval_latency` (latency.py lines 86-88). -/
def estimate_retrieval_latency (top_k : ℕ) : ℚ :=
  RETRIEVAL_BASE_LATENCY + ((top_k : ℚ) / 100) * RETRIEVAL_SCALING_FACTOR

/-- Embedding of `estimate_reranking_latency` (latency.py lines 91-99);
the document count is a Python `int`, modelled as `ℤ`. -/
def estimate_reranking_latency (doc_count : ℤ) : ℚ :=
  if doc_count ≤ 24 then RERANK_24_DOCS_TIME
  else if 96 ≤ doc_count then RERANK_96_DOCS_TIME
  else RERANK_24_DOCS_TIME +
    ((doc_count : ℚ) - 24) * (RERANK_96_DOCS_TIME - RERANK_24_DOCS_TIME) / (96 - 24)

/-- Result dict of `estimate_rag_latency`, one field per key (the source
dict repeats the monthly indexing total under two keys). -/
structure RagLatencyBreakdown where
  indexing_per_update : ℚ
  indexing_total_monthly : ℚ
  indexing_total : ℚ
  indexing_amortized : ℚ
  retrieval : ℚ
  reranking : ℚ
  llm_ttft : ℚ
  llm_decode : ℚ
  llm_total : ℚ
  e2e_without_indexing : ℚ
  total : ℚ
  throughput : ℚ
deriving Repr, DecidableEq

/-- Embedding of `estimate_rag_latency` (latency.py lines 102-148). -/
def estimate_rag_latency (corpus_tokens top_k prompt_tokens completion_tokens monthly_requests updates_per_month : ℕ)
    (rerank_top_k : Option ℕ) (uses_cache : Bool) : RagLatencyBreakdown :=
  let indexing_time_per_update := estimate_embedding_latency corpus_tokens
  let total_indexing_time_monthly := indexing_time_per_update * (updates_per_month : ℚ)
  let amortized_indexing_time :=
    if monthly_requests ≠ 0 then total_indexing_time_monthly / (monthly_requests : ℚ) else 0.0
  let retrieval_time := estimate_retrieval_latency top_k
  let rerank_docs := match rerank_top_k with
    | some k => k
    | none => top_k
  let reranking_time := estimate_reranking_latency (rerank_docs : ℤ)
  let llm_latency := estimate_latency prompt_tokens completion_tokens uses_cache
  let total_rag_latency := amortized_indexing_time + retrieval_time + reranking_time + llm_latency.total
  let e2e_without_indexing := retrieval_time + reranking_time + llm_latency.total
  { indexing_per_update := indexing_time_per_update
    indexing_total_monthly := total_indexing_time_monthly
    indexing_total := total_indexing_time_monthly
    indexing_amortized := amortized_indexing_time
    retrieval := retrieval_time
    reranking := reranking_time
    llm_ttft := llm_latency.ttft
    llm_decode := llm_latency.decode
    llm_total := llm_latency.total
    e2e_without_indexing := e2e_without_indexing
    total := total_rag_latency
    throughput := llm_latency.throughput }

/- ===================== src/calculators/long_context.py ===================== -/

/-- CalculationResult produced by `LongContextNoCache.calculate`; the
`cost_breakdown` dict keys `input`/`output` are the last two fields
(display-string `additional_metrics` are omitted). -/
structure LCNoCacheResult where
  scenario_name : String
  monthly_cost : ℚ
  cost_per_request : ℚ
  avg_time_seconds : ℚ
  input_tokens : ℕ
  latency : LatencyBreakdown
  breakdown_input : ℚ
  breakdown_output : ℚ
deriving Repr, DecidableEq

/-- Embedding of `LongContextNoCache.calculate` (long_context.py lines
12-42); the two price lookups can raise on an unknown plan key, hence
`Except`. -/
def longContextNoCache (params : AppParams) : Except String LCNoCacheResult :=
  let prompt_tokens := params.knowledge_base.total_tokens + params.query.query_tokens
  let plan_key := some params.pricing.plan_key
  match pricing.input_price prompt_tokens plan_key, pricing.output_price prompt_tokens plan_key with
  | .ok ip, .ok op =>
    let input_cost_per_request := (prompt_tokens : ℚ) / 1000000 * ip
    let output_cost_per_request := (params.query.output_tokens : ℚ) / 1000000 * op
    let cost_per_request := input_cost_per_request + output_cost_per_request
    let monthly_cost := cost_per_request * (params.monthly_requests : ℚ)
    let latency := estimate_latency prompt_tokens params.query.output_tokens false
    .ok { scenario_name := "Long Context (No Cache)"
          monthly_cost := monthly_cost
          cost_per_request := cost_per_request
          avg_time_seconds := latency.total
          input_tokens := prompt_tokens
          latency := latency
          breakdown_input := input_cost_per_request
          breakdown_output := output_cost_per_request }
  | .error e, _ => .error e
  | _, .error e => .error e

/-- CalculationResult produced by `LongContextWithCache.calculate`; the
five `cost_breakdown` keys are the last five fields. -/
structure LCWithCacheResult where
  scenario_name : String
  monthly_cost : ℚ
  cost_per_request : ℚ
  avg_time_seconds : ℚ
  input_tokens : ℕ
  latency : LatencyBreakdown
  cache_write : ℚ
  cache_storage : ℚ
  cache_read : ℚ
  query_input : ℚ
  output : ℚ
deriving Repr, DecidableEq

/-- Effective-TTFT token count of `LongContextWithCache.calculate`
(long_context.py line 80): `int(total_tokens * 0.15) + query_tokens`;
`int` truncation of the nonnegative product is `Nat.floor`. -/
def cached_ttft_tokens (params : AppParams) : ℕ :=
  Nat.floor ((params.knowledge_base.total_tokens : ℚ) * 0.15) + params.query.query_tokens

/-- Embedding of `LongContextWithCache.calculate` (long_context.py lines
48-105). -/
def longContextWithCache (params : AppParams) : Except String LCWithCacheResult :=
  let total_tokens := params.knowledge_base.total_tokens
  let prompt_tokens := total_tokens + params.query.query_tokens
  let plan_key := some params.pricing.plan_key
  match pricing.cache_write_price total_tokens plan_key,
        pricing.cache_storage_price_per_hour total_tokens plan_key,
        pricing.cache_read_price total_tokens plan_key,
        pricing.input_price prompt_tokens plan_key,
        pricing.output_price prompt_tokens plan_key with
  | .ok cwp, .ok csp, .ok crp, .ok ip, .ok op =>
    let cache_write_cost :=
      (total_tokens : ℚ) / 1000000 * cwp * (params.knowledge_base.updates_per_month : ℚ)
    let cache_storage_cost :=
      (total_tokens : ℚ) / 1000000 * csp * (params.knowledge_base.cache_storage_hours_per_month : ℚ)
    let cache_read_cost_per_request := (total_tokens : ℚ) / 1000000 * crp
    let query_input_cost_per_request := (params.query.query_tokens : ℚ) / 1000000 * ip
    let output_cost_per_request := (params.query.output_tokens : ℚ) / 1000000 * op
    let cost_per_request :=
      cache_read_cost_per_request + query_input_cost_per_request + output_cost_per_request
    let monthly_cost :=
      cache_write_cost + cache_storage_cost + cost_per_request * (params.monthly_requests : ℚ)
    let latency := estimate_latency (cached_ttft_tokens params) params.query.output_tokens true
    .ok { scenario_name := "Long Context (Cache)"
          monthly_cost := monthly_cost
          cost_per_request := cost_per_request
          avg_time_seconds := latency.total
          input_tokens := prompt_tokens
          latency := latency
          cache_write := cache_write_cost
          cache_storage := cache_storage_cost
          cache_read := cache_read_cost_per_request
          query_input := query_input_cost_per_request
          output := output_cost_per_request }
  | .error e, _, _, _, _ => .error e
  | _, .error e, _, _, _ => .error e
  | _, _, .error e, _, _ => .error e
  | _, _, _, .error e, _ => .error e
  | _, _, _, _, .error e => .error e

/- ===================== src/calculators/grep.py ===================== -/

/-- CalculationResult produced by `GrepCalculator.calculate`; the
`cost_breakdown` keys `input`/`output` are the last two fields. -/
structure GrepResult where
  scenario_name : String
  monthly_cost : ℚ
  cost_per_request : ℚ
  avg_time_seconds : ℚ
  input_tokens : ℕ
  latency : LatencyBreakdown
  breakdown_input : ℚ
  breakdown_output : ℚ
deriving Repr, DecidableEq

/-- The list `prompt_tokens_per_attempt` of `GrepCalculator.calculate`
(grep.py lines 13-27): one entry per failed attempt plus the final
successful attempt. -/
def grep_prompt_tokens (params : AppParams) : List ℕ :=
  let attempts := max 1 params.grep.avg_tries
  let failed_attempts := attempts - 1
  let grep_false_file_tokens :=
    params.grep.false_file_tokens params.knowledge_base.tokens_per_page
  let grep_true_file_tokens :=
    params.grep.true_file_tokens params.knowledge_base.tokens_per_page
  ((List.range failed_attempts).map
      (fun index => params.query.query_tokens + (index + 1) * grep_false_file_tokens)) ++
    [params.query.query_tokens + failed_attempts * grep_false_file_tokens + grep_true_file_tokens]

/-- Python `sum(...)` over a generator of fallible terms: adds left to
right and aborts at the first raised exception. -/
def exceptSumMap (f : ℕ → Except String ℚ) : List ℕ → Except String ℚ
  | [] => .ok 0
  | t :: ts =>
    match f t, exceptSumMap f ts with
    | .ok a, .ok b => .ok (a + b)
    | .error e, _ => .error e
    | _, .error e => .error e

/-- Fallible map, collecting the per-attempt values. -/
def mapMExcept (f : ℕ → Except String ℚ) : List ℕ → Except String (List ℚ)
  | [] => .ok []
  | t :: ts =>
    match f t, mapMExcept f ts with
    | .ok a, .ok bs => .ok (a :: bs)
    | .error e, _ => .error e
    | _, .error e => .error e

/-- One term of the grep input-cost sum (grep.py lines 32-34):
`(tokens / 1_000_000) * pricing.input_price(tokens, plan_key)`. -/
def grep_input_cost_term (plan_key : String) (tokens : ℕ) : Except String ℚ :=
  match pricing.input_price tokens (some plan_key) with
  | .ok p => .ok ((tokens : ℚ) / 1000000 * p)
  | .error e => .error e

/-- One term of the grep output-cost sum (grep.py lines 35-38):
`(output_tokens / 1_000_000) * pricing.output_price(tokens, plan_key)`. -/
def grep_output_cost_term (plan_key : String) (output_tokens tokens : ℕ) : Except String ℚ :=
  match pricing.output_price tokens (some plan_key) with
  | .ok p => .ok ((output_tokens : ℚ) / 1000000 * p)
  | .error e => .error e

/-- Combined input-plus-output cost of a single grep attempt, both priced
at that attempt's own prompt token count. -/
def grep_attempt_cost (plan_key : String) (output_tokens tokens : ℕ) : Except String ℚ :=
  match grep_input_cost_term plan_key tokens,
        grep_output_cost_term plan_key output_tokens tokens with
  | .ok a, .ok b => .ok (a + b)
  | .error e, _ => .error e
  | _, .error e => .error e

/-- Embedding of `GrepCalculator.calculate` (grep.py lines 12-72). The
final `latencies[-1]` read is total because `prompt_tokens_per_attempt`
always ends with the appended successful attempt; `0` stands for the
unreachable empty case. -/
def grepCalculate (params : AppParams) : Except String GrepResult :=
  let plan_key := params.pricing.plan_key
  let prompt_tokens_per_attempt := grep_prompt_tokens params
  let total_input_tokens := prompt_tokens_per_attempt.sum
  match exceptSumMap (grep_input_cost_term plan_key) prompt_tokens_per_attempt,
        exceptSumMap (grep_output_cost_term plan_key params.query.output_tokens)
          prompt_tokens_per_attempt with
  | .ok input_cost_per_request, .ok output_cost_per_request =>
    let cost_per_request := input_cost_per_request + output_cost_per_request
    let monthly_cost := cost_per_request * (params.monthly_requests : ℚ)
    let latencies := prompt_tokens_per_attempt.map
      (fun tokens => estimate_latency tokens params.query.output_tokens false)
    let total_ttft := (latencies.map (fun lat => lat.ttft)).sum
    let total_decode := (latencies.map (fun lat => lat.decode)).sum
    let last_throughput := match latencies.getLast? with
      | some lat => lat.throughput
      | none => 0
    .ok { scenario_name := "Just Grep"
          monthly_cost := monthly_cost
          cost_per_request := cost_per_request
          avg_time_seconds := total_ttft + total_decode
          input_tokens := total_input_tokens
          latency := { ttft := total_ttft
                       decode := total_decode
                       total := total_ttft + total_decode
                       throughput := last_throughput }
          breakdown_input := input_cost_per_request
          breakdown_output := output_cost_per_request }
  | .error e, _ => .error e
  | _, .error e => .error e

/- ===================== src/calculators/rag.py ===================== -/

/-- CalculationResult produced by `RAGCalculator.calculate`; the six
`cost_breakdown` keys are the last six fields. -/
structure RAGResult where
  scenario_name : String
  monthly_cost : ℚ
  cost_per_request : ℚ
  avg_time_seconds : ℚ
  input_tokens : ℕ
  latency : RagLatencyBreakdown
  llm_input : ℚ
  llm_output : ℚ
  vector_db_base : ℚ
  embedding : ℚ
  rerank : ℚ
  vector_db_per_request : ℚ
deriving Repr, DecidableEq

/-- Python attribute read `params.rag.rerank_context_limit` (rag.py line
30). The `RAGParams` dataclass declares no such field (see
`ragParamsAttrs`) and no code in the repository ever assigns it, so the
lookup unconditionally raises `AttributeError`. -/
def rag_rerank_context_limit_attr (_r : RAGParams) : Except String (Option ℕ) :=
  .error "AttributeError: RAGParams object has no attribute rerank_context_limit"

/-- Division guard of rag.py line 45:
`vector_db_monthly_cost / monthly_requests if monthly_requests else 0.0`. -/
def rag_vector_db_cost_per_request (vector_db_monthly_cost : ℚ) (monthly_requests : ℕ) : ℚ :=
  if monthly_requests ≠ 0 then vector_db_monthly_cost / (monthly_requests : ℚ) else 0.0

/-- Embedding of `RAGCalculator.calculate` (rag.py lines 14-91), in source
order: the LLM price lookups (lines 22-25) run first, then line 30 reads
the missing `rerank_context_limit` attribute; the remainder (lines 30-91)
is kept faithful to the source even though the attribute read always
raises before it. `x or y` on a Python optional int maps `None` and `0`
to `y`. -/
def ragCalculate (params : AppParams) : Except String RAGResult :=
  let retrieved_tokens := params.rag.top_k * params.rag.tokens_per_chunk
  let prompt_tokens := retrieved_tokens + params.query.query_tokens
  let plan_key := some params.pricing.plan_key
  let monthly_requests := params.monthly_requests
  match pricing.input_price prompt_tokens plan_key, pricing.output_price prompt_tokens plan_key with
  | .ok ip, .ok op =>
    let input_cost_per_request := (prompt_tokens : ℚ) / 1000000 * ip
    let output_cost_per_request := (params.query.output_tokens : ℚ) / 1000000 * op
    let llm_cost_per_request := input_cost_per_request + output_cost_per_request
    let rerank_docs := max params.rag.top_k params.rag.rerank_top_k
    match rag_rerank_context_limit_attr params.rag with
    | .error e => .error e
    | .ok attr_value =>
      let rerank_context_limit := match attr_value with
        | none => 4096
        | some v => if v = 0 then 4096 else v
      let tokens_available_for_docs : ℕ :=
        (max 0 ((rerank_context_limit : ℤ) - (params.query.query_tokens : ℤ))).toNat
      let tokens_per_candidate :=
        if params.rag.tokens_per_chunk = 0 then 1 else params.rag.tokens_per_chunk
      let docs_per_rerank_call := max 1 (tokens_available_for_docs / tokens_per_candidate)
      let rerank_calls_per_request : ℕ :=
        if rerank_docs ≠ 0 then Nat.ceil ((rerank_docs : ℚ) / (docs_per_rerank_call : ℚ)) else 0
      let embedding_tokens_total := params.knowledge_base.pages * params.knowledge_base.tokens_per_page
      let embedding_cost_per_reindex :=
        (embedding_tokens_total : ℚ) / 1000000 * params.rag.embedding_price_per_million
      let monthly_embedding_cost :=
        embedding_cost_per_reindex * (params.knowledge_base.updates_per_month : ℚ)
      let rerank_cost_per_request :=
        params.rag.rerank_price_per_query * (rerank_calls_per_request : ℚ)
      let rerank_cost_monthly := rerank_cost_per_request * (monthly_requests : ℚ)
      let vector_db_monthly_cost :=
        params.rag.vector_db_base_cost + monthly_embedding_cost + rerank_cost_monthly
      let vdb_cost_per_request := rag_vector_db_cost_per_request vector_db_monthly_cost monthly_requests
      let cost_per_request := llm_cost_per_request + vdb_cost_per_request
      let monthly_cost := llm_cost_per_request * (monthly_requests : ℚ) + vector_db_monthly_cost
      let latency := estimate_rag_latency params.knowledge_base.total_tokens params.rag.top_k
        prompt_tokens params.query.output_tokens params.monthly_requests
        params.knowledge_base.updates_per_month (some params.rag.rerank_top_k) false
      .ok { scenario_name := "RAG w/ Vector DB"
            monthly_cost := monthly_cost
            cost_per_request := cost_per_request
            avg_time_seconds := latency.total
            input_tokens := prompt_tokens
            latency := latency
            llm_input := input_cost_per_request
            llm_output := output_cost_per_request
            vector_db_base := params.rag.vector_db_base_cost
            embedding := monthly_embedding_cost
            rerank := rerank_cost_monthly
            vector_db_per_request := vdb_cost_per_request }
  | .error e, _ => .error e
  | _, .error e => .error e

/-- Modelled from the spec: the spec's `RAGConfig` carries a
`rerank_context_token_limit` field that is missing from the source's
`RAGParams` dataclass; documents-per-rerank-call =
`max(1, floor((rerank_context_token_limit - query_tokens) / tokens_per_chunk))`,
with the context limit defaulting to 4096 if unset and negative token
availability clamped to zero. -/
def spec_docs_per_rerank_call (rerank_context_token_limit : Option ℕ)
    (query_tokens tokens_per_chunk : ℕ) : ℕ :=
  let limit := rerank_context_token_limit.getD 4096
  let available : ℕ := (max 0 ((limit : ℤ) - (query_tokens : ℤ))).toNat
  max 1 (available / tokens_per_chunk)

/-- Modelled from the spec: rerank calls needed =
`ceiling(candidates / docs-per-call)` with `candidates = max(top_k,
rerank_top_k)`, and 0 calls when the candidate count is 0. -/
def spec_rerank_calls (top_k rerank_top_k docs_per_call : ℕ) : ℕ :=
  let candidates := max top_k rerank_top_k
  if candidates = 0 then 0 else Nat.ceil ((candidates : ℚ) / (docs_per_call : ℚ))

/- ===================== concrete inputs ===================== -/

/-- End-to-end scenario of the spec: 1000 pages at 600 tokens per page, 4
updates per month, 1000 requests per day, default pricing plan and
query/output defaults. -/
def exampleParams : AppParams :=
  { knowledge_base := { pages := 1000, tokens_per_page := 600, updates_per_month := 4 }
    query := {}
    rag := { top_k := 3 }
    grep := { avg_tries := 4, avg_docs_retrieved := 1 }
    pricing := {}
    requests_per_day := 1000 }

/-- Knowledge base of 337 total tokens: `0.15 * 337 = 50.55` is not an
integer, which exposes the `int(...)` truncation in the cached
effective-TTFT token count. -/
def params337 : AppParams :=
  { exampleParams with knowledge_base := { pages := 337, tokens_per_page := 1, updates_per_month := 4 } }

/-- Grep scenario with a single try. -/
def paramsOneTry : AppParams :=
  { exampleParams with grep := { avg_tries := 1, avg_docs_retrieved := 1 } }

/-- Spec-side reading of the tier lookup rule: a tier matches token count
`n` when its `upper_bound_tokens` is null or at least `n`. -/
def specTierMatches (tokens : ℕ) (t : TierPricing) : Prop :=
  t.up_to_tokens = none ∨ ∃ b, t.up_to_tokens = some b ∧ tokens ≤ b

/-- Placeholder result used only for the unreachable error branches of the
concrete-result extractors below. -/
def junkLatency : LatencyBreakdown :=
  { ttft := 0, decode := 0, total := 0, throughput := 0 }

/-- Result of the with-cache calculator on the end-to-end scenario,
extracted from the computation (the error branch is unreachable). -/
def lcwcExampleResult : LCWithCacheResult :=
  match longContextWithCache exampleParams with
  | .ok r => r
  | .error _ =>
    { scenario_name := "", monthly_cost := 0, cost_per_request := 0, avg_time_seconds := 0
      input_tokens := 0, latency := junkLatency, cache_write := 0, cache_storage := 0
      cache_read := 0, query_input := 0, output := 0 }

/-- Result of the grep calculator on the single-try scenario, extracted
from the computation (the error branch is unreachable). -/
def grepOneTryResult : GrepResult :=
  match grepCalculate paramsOneTry with
  | .ok r => r
  | .error _ =>
    { scenario_name := "", monthly_cost := 0, cost_per_request := 0, avg_time_seconds := 0
      input_tokens := 0, latency := junkLatency, breakdown_input := 0, breakdown_output := 0 }

/- ===================== helper lemmas ===================== -/

/-- Boolean loop condition agrees with the spec-side matching predicate. -/
lemma tierMatches_iff (tokens : ℕ) (t : TierPricing) :
    tierMatches tokens t = true ↔ specTierMatches tokens t := by
  unfold tierMatches specTierMatches
  cases h : t.up_to_tokens <;> simp [h]

/-- Resolving the default key yields the Claude plan. -/
lemma get_plan_default : pricing.get_plan (some DEFAULT_PLAN_KEY) = .ok claudePlan := rfl

/-- Evaluation of the end-to-end prompt size. -/
lemma example_total_tokens : exampleParams.knowledge_base.total_tokens = 600000 := rfl

/-- Evaluation of the end-to-end monthly request count. -/
lemma example_monthly_requests : exampleParams.monthly_requests = 30000 := rfl

/-- Above the 200k bound the Claude plan prices input at the catch-all tier. -/
lemma input_price_600050 :
    pricing.input_price 600050 (some DEFAULT_PLAN_KEY) = .ok claudeTier1.input_per_million := rfl

/-- Above the 200k bound the Claude plan prices output at the catch-all tier. -/
lemma output_price_600050 :
    pricing.output_price 600050 (some DEFAULT_PLAN_KEY) = .ok claudeTier1.output_per_million := rfl

/- ===================== C7 ===================== -/

/-- Claim C7: the reranking latency function returns 0.150 s for every
document count at most 24, 0.280 s for every document count at least 96,
linearly interpolates strictly between 24 and 96, and hits the two
calibration points exactly. -/
theorem reranking_latency_clamp_and_interpolation :
    (∀ d : ℤ, d ≤ 24 → estimate_reranking_latency d = 0.150) ∧
    (∀ d : ℤ, 96 ≤ d → estimate_reranking_latency d = 0.280) ∧
    (∀ d : ℤ, 24 < d → d < 96 →
      estimate_reranking_latency d =
        0.150 + ((d : ℚ) - 24) * (0.280 - 0.150) / (96 - 24)) ∧
    estimate_reranking_latency 24 = 0.150 ∧
    estimate_reranking_latency 96 = 0.280 := by
  refine ⟨?_, ?_, ?_, ?_, ?_⟩
  · intro d hd
    simp [estimate_reranking_latency, RERANK_24_DOCS_TIME, hd]
  · intro d hd
    have h1 : ¬ d ≤ 24 := by omega
    simp [estimate_reranking_latency, RERANK_96_DOCS_TIME, h1, hd]
  · intro d h1 h2
    have h3 : ¬ d ≤ 24 := by omega
    have h4 : ¬ 96 ≤ d := by omega
    simp [estimate_reranking_latency, RERANK_24_DOCS_TIME, RERANK_96_DOCS_TIME, h3, h4]
  · simp [estimate_reranking_latency, RERANK_24_DOCS_TIME]
  · have h1 : ¬ (96 : ℤ) ≤ 24 := by omega
    simp [estimate_reranking_latency, RERANK_96_DOCS_TIME, h1]

/-- Witness for C7 at document counts 10, 100 and 60. -/
theorem reranking_latency_clamp_and_interpolation_check :
    estimate_reranking_latency 10 = 0.150 ∧
    estimate_reranking_latency 100 = 0.280 ∧
    estimate_reranking_latency 60 = 0.150 + ((60 : ℚ) - 24) * (0.280 - 0.150) / (96 - 24) :=
  ⟨reranking_latency_clamp_and_interpolation.1 10 (by decide),
   reranking_latency_clamp_and_interpolation.2.1 100 (by decide),
   reranking_latency_clamp_and_interpolation.2.2.1 60 (by decide) (by decide)⟩

/- ===================== C8 ===================== -/

/-- Claim C8: with zero monthly requests the amortized quantities are 0
rather than a division error: the RAG latency model's amortized indexing
time is 0 (latency.py line 117) and the RAG calculator's
vector-DB-cost-per-request guard yields 0 (rag.py line 45). -/
theorem zero_monthly_requests_returns_zero :
    ∀ (corpus_tokens top_k prompt_tokens completion_tokens updates_per_month rerank_top_k : ℕ)
      (uses_cache : Bool) (vector_db_monthly_cost : ℚ),
      (estimate_rag_latency corpus_tokens top_k prompt_tokens completion_tokens 0
          updates_per_month (some rerank_top_k) uses_cache).indexing_amortized = 0 ∧
      rag_vector_db_cost_per_request vector_db_monthly_cost 0 = 0 := by
  intro corpus_tokens top_k prompt_tokens completion_tokens updates_per_month rerank_top_k uses_cache v
  constructor
  · norm_num [estimate_rag_latency]
  · norm_num [rag_vector_db_cost_per_request]

/- ===================== C10 ===================== -/

/-- Claim C10: the empty string is falsy in Python, so
`get_plan("")` resolves the default plan even though `""` is not a key of
the plan mapping; `get_plan(None)` does the same. -/
theorem empty_plan_key_returns_default_plan :
    PRICING_PLANS.lookup "" = none ∧
    pricing.get_plan (some "") = .ok claudePlan ∧
    pricing.get_plan none = .ok claudePlan := by
  refine ⟨rfl, rfl, rfl⟩

/- ===================== C5 ===================== -/

/-- Counterexample to claim C5 as stated: the empty string is a plan key
absent from the catalog mapping, yet resolving it silently returns the
default plan instead of failing. -/
theorem unknown_plan_key_counterexample :
    PRICING_PLANS.lookup "" = none ∧ pricing.get_plan (some "") = .ok claudePlan := by
  exact ⟨rfl, rfl⟩

/-- Claim C5 (amended): for every NON-EMPTY plan key absent from the plan
mapping, resolution and every price lookup through it fail with the
plan-not-found error, which propagates; no silent defaulting occurs for
such keys (the empty string, being falsy, instead requests the default). -/
theorem unknown_nonempty_plan_key_errors :
    ∀ k : String, k ≠ "" → PRICING_PLANS.lookup k = none →
      pricing.get_plan (some k) = .error ("Unknown pricing plan " ++ k) ∧
      ∀ tokens : ℕ,
        pricing.input_price tokens (some k) = .error ("Unknown pricing plan " ++ k) ∧
        pricing.output_price tokens (some k) = .error ("Unknown pricing plan " ++ k) ∧
        pricing.cache_write_price tokens (some k) = .error ("Unknown pricing plan " ++ k) ∧
        pricing.cache_read_price tokens (some k) = .error ("Unknown pricing plan " ++ k) ∧
        pricing.cache_storage_price_per_hour tokens (some k) = .error ("Unknown pricing plan " ++ k) := by
  intro k hk hlook
  have hgp : pricing.get_plan (some k) = .error ("Unknown pricing plan " ++ k) := by
    unfold PricingCatalog.get_plan
    simp [pricing, hk, hlook]
  refine ⟨hgp, fun tokens => ?_⟩
  refine ⟨?_, ?_, ?_, ?_, ?_⟩ <;>
    simp [PricingCatalog.input_price, PricingCatalog.output_price,
      PricingCatalog.cache_write_price, PricingCatalog.cache_read_price,
      PricingCatalog.cache_storage_price_per_hour, PricingCatalog.price_via, hgp]

/-- Witness for C5 (amended) at the concrete key "nope". -/
theorem unknown_nonempty_plan_key_errors_check :
    pricing.get_plan (some "nope") = .error ("Unknown pricing plan " ++ "nope") ∧
    pricing.input_price 123 (some "nope") = .error ("Unknown pricing plan " ++ "nope") :=
  ⟨(unknown_nonempty_plan_key_errors "nope" (by decide) rfl).1,
   ((unknown_nonempty_plan_key_errors "nope" (by decide) rfl).2 123).1⟩

/- ===================== C2 ===================== -/

/-- Concrete evaluation of the no-cache calculator on the end-to-end
scenario. -/
lemma lcnc_example_eval :
    longContextNoCache exampleParams = .ok
      { scenario_name := "Long Context (No Cache)"
        monthly_cost := 3.6228 * 30000
        cost_per_request := 3.6228
        avg_time_seconds := (estimate_latency 600050 1000 false).total
        input_tokens := 600050
        latency := estimate_latency 600050 1000 false
        breakdown_input := 3.6003
        breakdown_output := 0.0225 } := by
  have hip := input_price_600050
  have hop := output_price_600050
  norm_num [longContextNoCache, exampleParams, KnowledgeBaseParams.total_tokens,
    AppParams.monthly_requests, hip, hop, claudeTier1]

/-- Claim C2: on the end-to-end scenario (1000 pages x 600 tokens, 1000
requests per day, default plan, 50 query and 1000 output tokens) the
no-cache calculator reports 600050 input tokens, prices input and output
at the over-200k tier (6.0 and 22.5 per million), and yields
cost_per_request = 0.600050 * 6.0 + 0.001 * 22.5 = 3.6228 and
monthly_cost = cost_per_request * 30000. -/
theorem lcnc_end_to_end_scenario :
    ∃ r, longContextNoCache exampleParams = .ok r ∧
      r.input_tokens = 600050 ∧
      claudePlan.tier_for_tokens 600050 = some claudeTier1 ∧
      claudeTier1.input_per_million = 6.0 ∧
      claudeTier1.output_per_million = 22.5 ∧
      r.cost_per_request = 0.600050 * 6.0 + 0.001 * 22.5 ∧
      r.cost_per_request = 3.6228 ∧
      r.monthly_cost = r.cost_per_request * 30000 ∧
      exampleParams.monthly_requests = 30000 := by
  refine ⟨_, lcnc_example_eval, rfl, rfl, rfl, rfl, by norm_num, by norm_num, by norm_num, rfl⟩

/- ===================== C1 ===================== -/

/-- Claim C1 is a code bug: `RAGCalculator.calculate` reads
`params.rag.rerank_context_limit` (rag.py line 30) but the `RAGParams`
dataclass declares no such attribute, so the calculator raises
`AttributeError` for every parameter set instead of computing the rerank
batching; the spec-modelled formulas do give docs-per-call = 5 and
rerank calls = 4 on the spec's numbers. -/
theorem rag_rerank_attr_missing_and_spec_batching :
    ragCalculate exampleParams =
      .error "AttributeError: RAGParams object has no attribute rerank_context_limit" ∧
    ("rerank_context_limit" ∈ ragParamsAttrs) = False ∧
    spec_docs_per_rerank_call none 50 800 = 5 ∧
    spec_docs_per_rerank_call (some 4096) 50 800 = 5 ∧
    spec_rerank_calls 3 20 5 = 4 ∧
    spec_rerank_calls 0 0 5 = 0 := by
  refine ⟨rfl, by decide, by decide, by decide, ?_, by decide⟩
  have h5 : ((max 3 20 : ℕ) : ℚ) / ((5 : ℕ) : ℚ) = 4 := by norm_num
  norm_num [spec_rerank_calls, h5]

/- ===================== C3 ===================== -/

/-- Claim C3: whenever the with-cache calculator succeeds, its monthly
cost decomposes exactly (in exact rational arithmetic, hence well within
the 1e-9 relative tolerance) as cache_write + cache_storage +
cost_per_request * monthly_requests, and its per-request cost as
cache_read + query_input + output, where the five summands are exactly
the returned cost_breakdown entries. -/
theorem lcwc_monthly_cost_decomposition :
    ∀ (params : AppParams) (r : LCWithCacheResult),
      longContextWithCache params = .ok r →
      r.monthly_cost =
        r.cache_write + r.cache_storage + r.cost_per_request * (params.monthly_requests : ℚ) ∧
      r.cost_per_request = r.cache_read + r.query_input + r.output := by
  intro params r h
  simp only [longContextWithCache] at h
  split at h
  case _ => exact (by cases h; exact ⟨rfl, rfl⟩)
  all_goals exact absurd h (by simp)

/-- Witness for C3 on the end-to-end scenario. -/
theorem lcwc_monthly_cost_decomposition_check :
    lcwcExampleResult.monthly_cost =
      lcwcExampleResult.cache_write + lcwcExampleResult.cache_storage +
        lcwcExampleResult.cost_per_request * (exampleParams.monthly_requests : ℚ) ∧
    lcwcExampleResult.cost_per_request =
      lcwcExampleResult.cache_read + lcwcExampleResult.query_input + lcwcExampleResult.output :=
  lcwc_monthly_cost_decomposition exampleParams lcwcExampleResult rfl

/- ===================== C9 ===================== -/

/-- Counterexample to claim C9 as stated: with a 337-token knowledge base
the calculator passes `int(337 * 0.15) + 50 = 100` tokens to the prefill
function, which is not equal to `0.15 * 337 + 50 = 100.55` — the Python
`int(...)` truncation is missing from the claim. -/
theorem cached_ttft_truncation_counterexample :
    cached_ttft_tokens params337 = 100 ∧
    ((cached_ttft_tokens params337 : ℚ) ≠
      0.15 * (params337.knowledge_base.total_tokens : ℚ) + (params337.query.query_tokens : ℚ)) := by
  have h : cached_ttft_tokens params337 = 100 := by
    unfold cached_ttft_tokens
    norm_num [params337, exampleParams, KnowledgeBaseParams.total_tokens]
    have hf : Nat.floor ((1011 : ℚ) / 20) = 50 := by
      rw [Nat.floor_eq_iff (by norm_num)]
      norm_num
    rw [hf]
  refine ⟨h, ?_⟩
  rw [h]
  norm_num [params337, exampleParams, KnowledgeBaseParams.total_tokens]

/-- Claim C9 (amended): the with-cache calculator computes its latency by
passing floor(0.15 * total_tokens) + query_tokens (the `int(...)`
truncation of the source) to the latency estimator with cached=true, and
cached prefill time is the network overhead constant plus 0.25 times the
token-count-banded base TTFT. -/
theorem lcwc_latency_uses_floored_cached_ttft :
    (∀ (params : AppParams) (r : LCWithCacheResult),
      longContextWithCache params = .ok r →
      r.latency = estimate_latency
        (Nat.floor ((params.knowledge_base.total_tokens : ℚ) * 0.15) + params.query.query_tokens)
        params.query.output_tokens true ∧
      r.latency.ttft = prefill_time (cached_ttft_tokens params) true) ∧
    (∀ n : ℕ, prefill_time n true = BASE_NET_OVERHEAD + 0.25 * base_ttft n) := by
  constructor
  · intro params r h
    simp only [longContextWithCache] at h
    split at h
    case _ =>
      cases h
      exact ⟨rfl, rfl⟩
    all_goals exact absurd h (by simp)
  · intro n
    norm_num [prefill_time, CACHE_SPEEDUP_FACTOR]

/-- Witness for C9 (amended) on the end-to-end scenario and at a 200-token
prompt. -/
theorem lcwc_latency_uses_floored_cached_ttft_check :
    lcwcExampleResult.latency = estimate_latency
        (Nat.floor ((exampleParams.knowledge_base.total_tokens : ℚ) * 0.15) +
          exampleParams.query.query_tokens)
        exampleParams.query.output_tokens true ∧
    prefill_time 200 true = BASE_NET_OVERHEAD + 0.25 * base_ttft 200 :=
  ⟨(lcwc_latency_uses_floored_cached_ttft.1 exampleParams lcwcExampleResult rfl).1,
   lcwc_latency_uses_floored_cached_ttft.2 200⟩

/- ===================== C4 ===================== -/

/-- `List.find?` returns the head of the suffix when everything before it
fails the predicate and the head satisfies it. -/
lemma find_first_tier (tokens : ℕ) (pre post : List TierPricing) (t : TierPricing)
    (hpre : ∀ u ∈ pre, tierMatches tokens u = false)
    (ht : tierMatches tokens t = true) :
    (pre ++ t :: post).find? (tierMatches tokens) = some t := by
  induction pre with
  | nil => simpa using List.find?_cons_of_pos post ht
  | cons u us ih =>
    have hu : tierMatches tokens u = false := hpre u (by simp)
    rw [List.cons_append, List.find?_cons_of_neg _ (by simp [hu])]
    exact ih (fun v hv => hpre v (by simp [hv]))

/-- A tier with a finite bound below `b` never matches a token count of at
least `b`. -/
lemma no_match_of_bound_lt (tokens b : ℕ) (u : TierPricing)
    (hb : b ≤ tokens) (h : ∃ bu, u.up_to_tokens = some bu ∧ bu < b) :
    ¬ specTierMatches tokens u := by
  obtain ⟨bu, hbu, hlt⟩ := h
  intro hspec
  rcases hspec with hnone | ⟨bv, hbv, hle⟩
  · rw [hbu] at hnone; exact Option.noConfusion hnone
  · rw [hbu] at hbv
    have he : bu = bv := Option.some.inj hbv
    omega

/-- Claim C4: tier lookup returns the first tier whose upper bound is null
or at least the token count, and tier boundaries are exact — with tiers
ordered ascending, at the lower tier's bound `b` the lower tier applies
and at `b + 1` the next tier applies. -/
theorem tier_lookup_first_match_and_exact_boundaries :
    (∀ (p : PricingPlan) (tokens : ℕ) (pre post : List TierPricing) (t : TierPricing),
        p.tiers = pre ++ t :: post →
        (∀ u ∈ pre, ¬ specTierMatches tokens u) →
        specTierMatches tokens t →
        p.tier_for_tokens tokens = some t) ∧
    (∀ (p : PricingPlan) (pre post : List TierPricing) (t1 t2 : TierPricing) (b : ℕ),
        p.tiers = pre ++ t1 :: t2 :: post →
        t1.up_to_tokens = some b →
        (∀ u ∈ pre, ∃ bu, u.up_to_tokens = some bu ∧ bu < b) →
        (t2.up_to_tokens = none ∨ ∃ b2, t2.up_to_tokens = some b2 ∧ b < b2) →
        p.tier_for_tokens b = some t1 ∧ p.tier_for_tokens (b + 1) = some t2) := by
  have hfirst : ∀ (p : PricingPlan) (tokens : ℕ) (pre post : List TierPricing) (t : TierPricing),
      p.tiers = pre ++ t :: post →
      (∀ u ∈ pre, ¬ specTierMatches tokens u) →
      specTierMatches tokens t →
      p.tier_for_tokens tokens = some t := by
    intro p tokens pre post t hp hpre ht
    have hmem : ∀ u ∈ pre, tierMatches tokens u = false := by
      intro u hu
      cases hc : tierMatches tokens u
      · rfl
      · exact absurd ((tierMatches_iff tokens u).mp hc) (hpre u hu)
    unfold PricingPlan.tier_for_tokens
    rw [hp, find_first_tier tokens pre post t hmem ((tierMatches_iff tokens t).mpr ht)]
  refine ⟨hfirst, ?_⟩
  intro p pre post t1 t2 b hp h1 hpre ht2
  constructor
  · apply hfirst p b pre (t2 :: post) t1 hp
    · intro u hu
      exact no_match_of_bound_lt b b u (le_refl b) (hpre u hu)
    · exact Or.inr ⟨b, h1, le_refl b⟩
  · apply hfirst p (b + 1) (pre ++ [t1]) post t2
    · rw [hp]; simp
    · intro u hu
      rcases List.mem_append.mp hu with hupre | hut1
      · exact no_match_of_bound_lt (b + 1) b u (by omega) (hpre u hupre)
      · have heq : u = t1 := by simpa using hut1
        subst heq
        exact no_match_of_bound_lt (b + 1) (b + 1) u (le_refl _) ⟨b, h1, by omega⟩
    · rcases ht2 with hnone | ⟨b2, hb2, hlt⟩
      · exact Or.inl hnone
      · exact Or.inr ⟨b2, hb2, by omega⟩

/-- Witness for C4 at the Claude plan's 200000-token boundary. -/
theorem tier_lookup_first_match_and_exact_boundaries_check :
    claudePlan.tier_for_tokens 200000 = some claudeTier0 ∧
    claudePlan.tier_for_tokens 200001 = some claudeTier1 :=
  tier_lookup_first_match_and_exact_boundaries.2 claudePlan [] [] claudeTier0 claudeTier1 200000
    rfl rfl (by simp) (Or.inl rfl)

/- ===================== C6 ===================== -/

/-- When two fallible sums over the same list both succeed, the combined
per-element mapping succeeds and its total is the sum of the two sums. -/
lemma mapM_combine (f g comb : ℕ → Except String ℚ)
    (hc : ∀ t x y, f t = .ok x → g t = .ok y → comb t = .ok (x + y)) :
    ∀ (l : List ℕ) (a b : ℚ),
      exceptSumMap f l = .ok a → exceptSumMap g l = .ok b →
      ∃ cs : List ℚ, mapMExcept comb l = .ok cs ∧ cs.sum = a + b := by
  intro l
  induction l with
  | nil =>
    intro a b ha hb
    simp only [exceptSumMap] at ha hb
    cases ha
    cases hb
    exact ⟨[], by simp [mapMExcept], by simp⟩
  | cons t ts ih =>
    intro a b ha hb
    simp only [exceptSumMap] at ha hb
    rcases hft : f t with e1 | x
    · rw [hft] at ha
      simp at ha
    rcases hfts : exceptSumMap f ts with e2 | a2
    · rw [hft, hfts] at ha
      simp at ha
    rw [hft, hfts] at ha
    rcases hgt : g t with e3 | y
    · rw [hgt] at hb
      simp at hb
    rcases hgts : exceptSumMap g ts with e4 | b2
    · rw [hgt, hgts] at hb
      simp at hb
    rw [hgt, hgts] at hb
    simp at ha hb
    obtain ⟨cs, hcs, hsum⟩ := ih a2 b2 hfts hgts
    refine ⟨(x + y) :: cs, ?_, ?_⟩
    · simp only [mapMExcept]
      rw [hc t x y hft hgt, hcs]
    · simp only [List.sum_cons, hsum]
      rw [← ha, ← hb]
      ring

/-- Destructuring a successful grep calculation: both cost sums succeed
and the result's cost and latency fields are built from them and from the
per-attempt prompt token list. -/
lemma grep_ok_elim (params : AppParams) (r : GrepResult)
    (h : grepCalculate params = .ok r) :
    ∃ ic oc,
      exceptSumMap (grep_input_cost_term params.pricing.plan_key)
        (grep_prompt_tokens params) = .ok ic ∧
      exceptSumMap (grep_output_cost_term params.pricing.plan_key params.query.output_tokens)
        (grep_prompt_tokens params) = .ok oc ∧
      r.cost_per_request = ic + oc ∧
      r.latency.ttft = (((grep_prompt_tokens params).map
        (fun tokens => estimate_latency tokens params.query.output_tokens false)).map
          (fun lat => lat.ttft)).sum ∧
      r.latency.decode = (((grep_prompt_tokens params).map
        (fun tokens => estimate_latency tokens params.query.output_tokens false)).map
          (fun lat => lat.decode)).sum := by
  simp only [grepCalculate] at h
  rcases h1 : exceptSumMap (grep_input_cost_term params.pricing.plan_key)
      (grep_prompt_tokens params) with e1 | ic <;> rw [h1] at h
  · exact absurd h (by simp)
  rcases h2 : exceptSumMap (grep_output_cost_term params.pricing.plan_key
      params.query.output_tokens) (grep_prompt_tokens params) with e2 | oc <;> rw [h2] at h
  · exact absurd h (by simp)
  cases h
  exact ⟨ic, oc, rfl, rfl, rfl, rfl, rfl⟩

/-- Claim C6: for every parameter set with at least one try, the grep
calculator builds exactly avg_tries attempts whose prompt sizes follow the
failed/final pattern, prices every attempt's input and output at that
attempt's own prompt token count and sums the per-attempt costs into
cost_per_request; for avg_tries = 1 everything reduces to the single
successful attempt with prompt query_tokens + true_file_tokens. -/
theorem grep_builds_and_sums_per_attempt_costs :
    ∀ params : AppParams, 1 ≤ params.grep.avg_tries →
      (grep_prompt_tokens params).length = params.grep.avg_tries ∧
      (∀ i : ℕ, i < params.grep.avg_tries - 1 →
        (grep_prompt_tokens params)[i]? =
          some (params.query.query_tokens +
            (i + 1) * params.grep.false_file_tokens params.knowledge_base.tokens_per_page)) ∧
      (grep_prompt_tokens params).getLast? =
        some (params.query.query_tokens +
          (params.grep.avg_tries - 1) *
            params.grep.false_file_tokens params.knowledge_base.tokens_per_page +
          params.grep.true_file_tokens params.knowledge_base.tokens_per_page) ∧
      (∀ r : GrepResult, grepCalculate params = .ok r →
        ∃ costs : List ℚ,
          mapMExcept (grep_attempt_cost params.pricing.plan_key params.query.output_tokens)
            (grep_prompt_tokens params) = .ok costs ∧
          r.cost_per_request = costs.sum) ∧
      (params.grep.avg_tries = 1 →
        grep_prompt_tokens params =
          [params.query.query_tokens +
            params.grep.true_file_tokens params.knowledge_base.tokens_per_page] ∧
        ∀ r : GrepResult, grepCalculate params = .ok r →
          r.latency.ttft = (estimate_latency
            (params.query.query_tokens +
              params.grep.true_file_tokens params.knowledge_base.tokens_per_page)
            params.query.output_tokens false).ttft ∧
          r.latency.decode = (estimate_latency
            (params.query.query_tokens +
              params.grep.true_file_tokens params.knowledge_base.tokens_per_page)
            params.query.output_tokens false).decode) := by
  intro params h
  have hmax : max 1 params.grep.avg_tries = params.grep.avg_tries := Nat.max_eq_right h
  refine ⟨?_, ?_, ?_, ?_, ?_⟩
  · simp only [grep_prompt_tokens, hmax]
    simp only [List.length_append, List.length_map, List.length_range, List.length_cons,
      List.length_nil]
    omega
  · intro i hi
    simp only [grep_prompt_tokens, hmax]
    rw [List.getElem?_append]
    rw [if_pos (by simp only [List.length_map, List.length_range]; omega)]
    simp [List.getElem?_range (by omega : i < params.grep.avg_tries - 1)]
  · simp only [grep_prompt_tokens, hmax]
    rw [List.getLast?_concat]
  · intro r hr
    obtain ⟨ic, oc, h1, h2, hcost, _, _⟩ := grep_ok_elim params r hr
    have hc : ∀ t x y, grep_input_cost_term params.pricing.plan_key t = .ok x →
        grep_output_cost_term params.pricing.plan_key params.query.output_tokens t = .ok y →
        grep_attempt_cost params.pricing.plan_key params.query.output_tokens t = .ok (x + y) := by
      intro t x y hx hy
      simp only [grep_attempt_cost]
      rw [hx, hy]
    obtain ⟨cs, hcs, hsum⟩ := mapM_combine _ _ _ hc (grep_prompt_tokens params) ic oc h1 h2
    exact ⟨cs, hcs, by rw [hcost, ← hsum]⟩
  · intro h1
    have hl : grep_prompt_tokens params =
        [params.query.query_tokens +
          params.grep.true_file_tokens params.knowledge_base.tokens_per_page] := by
      simp [grep_prompt_tokens, h1]
    refine ⟨hl, ?_⟩
    intro r hr
    obtain ⟨ic, oc, _, _, _, httft, hdecode⟩ := grep_ok_elim params r hr
    rw [httft, hdecode, hl]
    constructor <;> simp

/-- Witness for C6 on the single-try scenario (prompt 50 + 6000 = 6050
tokens). -/
theorem grep_builds_and_sums_per_attempt_costs_check :
    grep_prompt_tokens paramsOneTry = [6050] ∧
    (grep_prompt_tokens paramsOneTry).length = 1 ∧
    ∃ costs : List ℚ,
      mapMExcept (grep_attempt_cost DEFAULT_PLAN_KEY 1000) (grep_prompt_tokens paramsOneTry) =
        .ok costs ∧
      grepOneTryResult.cost_per_request = costs.sum := by
  have h := grep_builds_and_sums_per_attempt_costs paramsOneTry (by decide)
  refine ⟨?_, ?_, ?_⟩
  · rw [(h.2.2.2.2 rfl).1]
    rfl
  · rw [h.1]
    rfl
  · exact h.2.2.2.1 grepOneTryResult rfl
